import Mathlib

/-!
Shallow embedding of `lib/ansible/modules/net_tools/basics/read_mail.py`
(`run_module`, lines 135-208) and of the exact behaviour of the Python
standard-library calls it makes (`imaplib`, `email.message_from_bytes`,
`email.header.decode_header`, `Message.get_payload`), at the level the
module exercises them.  Strings model Python byte/character strings.
-/

/-- Uncaught Python exceptions that the module can raise.  `typeError`
carries the exception message; `imaplibError` models `imaplib.IMAP4.error`
raised client-side by the `imaplib` state machine. -/
inductive PyErr where
  | typeError (msg : String)
  | indexError
  | imaplibError (msg : String)
deriving Repr, DecidableEq

/-- A parsed mail message as produced by `email.message_from_bytes`: an
ordered header list plus a payload that is either a single string (the
non-multipart case, `is_multipart() == False`) or a list of sub-messages
(the multipart case).  The model keeps payloads at the byte-string level
with an identity content-transfer-encoding (7bit/8bit/binary or absent), for
which `get_payload(decode=True)` returns the payload bytes unchanged; the
base64/quoted-printable/uuencode decoders are outside this model and no
theorem below depends on them. -/
inductive EmailMessage where
  | mk (headers : List (String × String)) (payload : String ⊕ List EmailMessage)

/-- Header list of a message. -/
def EmailMessage.headers : EmailMessage → List (String × String)
  | .mk h _ => h

/-- Payload of a message: `.inl` a single string, `.inr` sub-parts. -/
def EmailMessage.payload : EmailMessage → String ⊕ List EmailMessage
  | .mk _ p => p

/-- Models `Message.is_multipart()`: true exactly when the internal payload
is a list of sub-messages. -/
def EmailMessage.isMultipart (m : EmailMessage) : Bool :=
  match m.payload with
  | .inl _ => false
  | .inr _ => true

/-- ASCII lower-casing of a header name, as `name.lower()` acts on the
ASCII header names involved (`Message.get` lower-cases both sides). -/
def pyLower (s : String) : String :=
  String.mk (s.data.map Char.toLower)

/-- Models `msg[name]` (`Message.get(name, None)`): the first header whose
name matches case-insensitively, or `none` when the header is absent. -/
def headerGet (m : EmailMessage) (name : String) : Option String :=
  (m.headers.find? (fun kv => pyLower kv.1 == pyLower name)).map (fun kv => kv.2)

/-- Models `decode_header(h)[0][0]` as the module calls it, restricted to
headers that contain no RFC 2047 encoded words: for such a header string
`decode_header` returns `[(header, None)]`, so `[0][0]` is the header
unchanged.  For a missing header the module passes `None`, and
`decode_header(None)` raises `TypeError` (the encoded-word regular
expression is searched against a non-string; the carried message below is
the exception text of that regex failure, whose exact wording varies
slightly across Python versions). -/
def decodeHeaderFirst : Option String → Except PyErr String
  | none => .error (.typeError "expected string or bytes-like object")
  | some s => .ok s

/-- Models `msg.get_payload(i)` (no decoding): on a multipart message it
returns sub-part `i` (raising `IndexError` when out of range); on a
non-multipart message `Message.get_payload` raises
`TypeError('Expected list, got %s' % type(self._payload))`. -/
def getPayloadIdx (m : EmailMessage) (i : Nat) : Except PyErr EmailMessage :=
  match m.payload with
  | .inr parts =>
      match parts.get? i with
      | some p => .ok p
      | none => .error .indexError
  | .inl _ => .error (.typeError "Expected list, got <class \x27str\x27>")

/-- Models `part.get_payload(None, True)` (`decode=True`): on a multipart
part it returns `None`; on a single part it returns the payload decoded from
its content-transfer-encoding, which for the identity encodings covered by
this model is the payload unchanged. -/
def getPayloadDecoded (m : EmailMessage) : Option String :=
  match m.payload with
  | .inr _ => none
  | .inl s => some s

/-- One entry of the module's `mails` list (read_mail.py lines 200-205).
`body` is an `Option` because `get_payload(None, True)` returns `None` when
the first part is itself multipart. -/
structure MailRecord where
  to_ : String
  from_ : String
  subject : String
  body : Option String
deriving Repr, DecidableEq

instance {ε α : Type} [DecidableEq ε] [DecidableEq α] : DecidableEq (Except ε α) :=
  fun x y =>
    match x, y with
    | .error e, .error f =>
        if h : e = f then .isTrue (congrArg Except.error h)
        else .isFalse (fun hh => h (Except.error.inj hh))
    | .error _, .ok _ => .isFalse Except.noConfusion
    | .ok _, .error _ => .isFalse Except.noConfusion
    | .ok a, .ok b =>
        if h : a = b then .isTrue (congrArg Except.ok h)
        else .isFalse (fun hh => h (Except.ok.inj hh))

/-- Builds one mails-list entry (read_mail.py lines 200-205), evaluating the
dict values in Python's order: to, from, subject, body.  Any raised
exception aborts the whole module uncaught. -/
def buildMail (msg : EmailMessage) : Except PyErr MailRecord := do
  let t ← decodeHeaderFirst (headerGet msg "to")
  let f ← decodeHeaderFirst (headerGet msg "from")
  let s ← decodeHeaderFirst (headerGet msg "subject")
  let p ← getPayloadIdx msg 0
  .ok { to_ := t, from_ := f, subject := s, body := getPayloadDecoded p }

/-- The module's result dict (read_mail.py lines 151-157). -/
structure ModuleResult where
  changed : Bool
  username : String
  host : String
  mails : List MailRecord
  mails_count : Nat
deriving Repr, DecidableEq

/-- One iteration of the `search_array` loop (read_mail.py lines 184-187):
append `k`, then append `v` when `v` is truthy (`if v:`, so `None` and the
empty string are skipped). -/
def searchArrayStep (acc : List String) (kv : String × Option String) : List String :=
  let acc2 := acc ++ [kv.1]
  match kv.2 with
  | some v => if v ≠ "" then acc2 ++ [v] else acc2
  | none => acc2

/-- The `search_array` built by the loop at read_mail.py lines 183-187,
over the filter dict in insertion order. -/
def searchArray (filter : List (String × Option String)) : List String :=
  filter.foldl searchArrayStep []

/-- The token sequence as the spec words it: for each (key, value) pair in
insertion order, the key token, followed immediately by the value token
exactly when the value is present and non-empty. -/
def compileSpec : List (String × Option String) → List String
  | [] => []
  | (k, v) :: rest =>
      (k :: (match v with
             | some s => if s ≠ "" then [s] else []
             | none => [])) ++ compileSpec rest

/-- The declared default of the module's `filter` argument, `{'ALL': ''}`
(read_mail.py line 143), applied by Ansible only when the caller omits the
argument entirely. -/
def defaultFilter : List (String × Option String) := [("ALL", some "")]

/-- Accumulator pass for `pySplit`: `cur` holds the current word reversed. -/
def pySplitAux : List Char → List Char → List String
  | [], cur => if cur.isEmpty then [] else [String.mk cur.reverse]
  | c :: cs, cur =>
      if c.isWhitespace then
        if cur.isEmpty then pySplitAux cs []
        else String.mk cur.reverse :: pySplitAux cs []
      else pySplitAux cs (c :: cur)

/-- Models Python `bytes.split()` with no argument (read_mail.py line 193):
split on runs of whitespace, discarding empty pieces. -/
def pySplit (s : String) : List String :=
  pySplitAux s.data []

/-- Protocol-session operations the module performs on the `imaplib`
connection object, in order.  `close` is in the vocabulary so that its
absence from every trace is a statement, not a typing accident. -/
inductive ImapOp where
  | connect (host : String) (port : Int)
  | login (user : String)
  | select (mailbox : String)
  | search (tokens : List String)
  | fetch (id : String)
  | close
deriving Repr, DecidableEq

/-- How one invocation of `run_module` ends: `exit_json` (success),
`fail_json` (structured failure carrying the result dict), or an uncaught
Python exception (Ansible reports a raw module crash, no result dict). -/
inductive Outcome where
  | exitJson (r : ModuleResult)
  | failJson (msg : String) (r : ModuleResult)
  | crash (e : PyErr)
deriving Repr, DecidableEq

/-- Behaviour of the IMAP server (and transport) for one invocation:
`connectExc`/`loginExc` are `some msg` when the constructor / `login` call
raises an exception with message `msg`; `selectStatus` is the status
returned by `M.select`; `searchStatus` and `searchData` form the reply of
`M.search`; `fetch` gives per-id the fetch status and the message that
`message_from_bytes` parses from the reply. -/
structure ImapServer where
  connectExc : Option String
  loginExc : Option String
  selectStatus : String
  searchStatus : String
  searchData : String
  fetch : String → String × EmailMessage

/-- The module's parameters after Ansible argument parsing
(read_mail.py lines 136-149), plus check mode. -/
structure ModuleParams where
  host : String
  username : String
  password : String
  tls : Bool
  port : Int
  mailbox : String
  filter : List (String × Option String)
  checkMode : Bool

/-- The result dict as first seeded (read_mail.py lines 151-157). -/
def baseResult (p : ModuleParams) : ModuleResult :=
  { changed := true
    username := p.username
    host := p.host
    mails := []
    mails_count := 0 }

/-- Effective port resolution (read_mail.py lines 164-169): a negative port
means 993 under TLS and 143 otherwise. -/
def effectivePort (p : ModuleParams) : Int :=
  if p.tls then (if p.port < 0 then 993 else p.port)
  else (if p.port < 0 then 143 else p.port)

/-- The per-id loop (read_mail.py lines 193-206) followed by the final
`mails_count` assignment and `exit_json`.  A non-OK fetch status calls
`fail_json(msg='Error parsing', **result)` with the result dict as it
stands at that moment: `mails` holds the records appended so far and
`mails_count` is still its seeded value.  An exception while building a
record propagates uncaught. -/
def fetchLoop (fetch : String → String × EmailMessage) (base : ModuleResult) :
    List String → List MailRecord → Outcome × List ImapOp
  | [], acc => (.exitJson { base with mails := acc, mails_count := acc.length }, [])
  | id :: rest, acc =>
      let resp := fetch id
      if resp.1 ≠ "OK" then
        (.failJson "Error parsing" { base with mails := acc }, [.fetch id])
      else
        match buildMail resp.2 with
        | .error e => (.crash e, [.fetch id])
        | .ok mr =>
            let next := fetchLoop fetch base rest (acc ++ [mr])
            (next.1, .fetch id :: next.2)

/-- The whole of `run_module` (read_mail.py lines 135-208) against a given
server behaviour, returning the outcome and the trace of session operations
performed.  Line 180 (`M.select(...)`) discards the returned status;
`imaplib.IMAP4.select` does not raise on a `NO` reply (for example for a
nonexistent mailbox) but then stays in the AUTH state, so the subsequent
`M.search` call at line 188 raises
`imaplib.error('command SEARCH illegal in state AUTH, ...')` client-side
before any command is sent. -/
def runModule (p : ModuleParams) (srv : ImapServer) : Outcome × List ImapOp :=
  let result := baseResult p
  if p.checkMode then (.exitJson result, [])
  else
    match srv.connectExc with
    | some e => (.failJson e result, [.connect p.host (effectivePort p)])
    | none =>
      match srv.loginExc with
      | some e =>
          (.failJson e result, [.connect p.host (effectivePort p), .login p.username])
      | none =>
        let pre := [ImapOp.connect p.host (effectivePort p), .login p.username,
                    .select p.mailbox]
        if srv.selectStatus ≠ "OK" then
          (.crash (.imaplibError
              "command SEARCH illegal in state AUTH, only allowed in states SELECTED"),
           pre)
        else
          let tokens := searchArray p.filter
          if srv.searchStatus ≠ "OK" then
            (.failJson "Error filtering" result, pre ++ [.search tokens])
          else
            let looped := fetchLoop srv.fetch result (pySplit srv.searchData) []
            (looped.1, pre ++ [.search tokens] ++ looped.2)

/-- A well-formed multipart message with plain to/from/subject headers and a
single-part first part carrying `b`. -/
def msgMulti (t f s b : String) : EmailMessage :=
  .mk [("To", t), ("From", f), ("Subject", s)] (.inr [.mk [] (.inl b)])

/-- A well-formed single-part (non-multipart) message. -/
def msgSingle (t f s b : String) : EmailMessage :=
  .mk [("To", t), ("From", f), ("Subject", s)] (.inl b)

/-- A multipart message whose Subject header is absent. -/
def msgNoSubject (t f b : String) : EmailMessage :=
  .mk [("To", t), ("From", f)] (.inr [.mk [] (.inl b)])

/-- Standard parameters used by the concrete scenarios: defaults for every
optional argument, check mode off. -/
def paramsStd : ModuleParams :=
  { host := "imap.example.com"
    username := "alice"
    password := "pw"
    tls := true
    port := -1
    mailbox := "INBOX"
    filter := defaultFilter
    checkMode := false }

/-- A server on which connect, login, select and search succeed, the search
matches ids 1..5, fetching id 3 answers a non-OK status, and every other id
fetches a well-formed multipart message. -/
def srvFetchFail3 : ImapServer :=
  { connectExc := none
    loginExc := none
    selectStatus := "OK"
    searchStatus := "OK"
    searchData := "1 2 3 4 5"
    fetch := fun id =>
      if id = "3" then ("NO", msgMulti "x" "x" "x" "x")
      else ("OK", msgMulti "Bob" "Ann" "Hi" "B") }

/-- The record decoded from every successfully fetched message of the
concrete scenarios. -/
def recStd : MailRecord :=
  { to_ := "Bob", from_ := "Ann", subject := "Hi", body := some "B" }


/-- A server on which everything succeeds: the search matches ids 1 and 2
and both fetches return a well-formed multipart message. -/
def srvTwoMails : ImapServer :=
  { connectExc := none
    loginExc := none
    selectStatus := "OK"
    searchStatus := "OK"
    searchData := "1 2"
    fetch := fun _ => ("OK", msgMulti "Bob" "Ann" "Hi" "B") }

/-- The result dict of a successful run against `srvTwoMails`. -/
def resTwoMails : ModuleResult :=
  { changed := true
    username := "alice"
    host := "imap.example.com"
    mails := [recStd, recStd]
    mails_count := 2 }

/-- The session trace of a successful run against `srvTwoMails`. -/
def traceTwoMails : List ImapOp :=
  [.connect "imap.example.com" 993, .login "alice", .select "INBOX",
   .search ["ALL"], .fetch "1", .fetch "2"]

/-- The result dict passed to `fail_json` when fetching id 3 of
`srvFetchFail3` fails: the two already-decoded records are in `mails`,
`mails_count` is still 0. -/
def resFail3 : ModuleResult :=
  { changed := true
    username := "alice"
    host := "imap.example.com"
    mails := [recStd, recStd]
    mails_count := 0 }

/-- The session trace of the aborted run against `srvFetchFail3`. -/
def traceFail3 : List ImapOp :=
  [.connect "imap.example.com" 993, .login "alice", .select "INBOX",
   .search ["ALL"], .fetch "1", .fetch "2", .fetch "3"]

/-- A server whose mailbox-select reply is `NO` (nonexistent mailbox);
everything else would succeed. -/
def srvBadMailbox : ImapServer :=
  { srvTwoMails with selectStatus := "NO" }

/-- Parameters naming a mailbox that does not exist on `srvBadMailbox`. -/
def paramsJunk : ModuleParams :=
  { paramsStd with mailbox := "Junk" }

/-- A server delivering a single well-formed but non-multipart message. -/
def srvSingleMail : ImapServer :=
  { srvTwoMails with
      searchData := "1"
      fetch := fun _ => ("OK", msgSingle "bob@x" "ann@x" "Hello" "The body") }

/-- A server delivering one message whose Subject header is missing. -/
def srvNoSubject : ImapServer :=
  { srvTwoMails with
      searchData := "1"
      fetch := fun _ => ("OK", msgNoSubject "bob@x" "ann@x" "The body") }

/-- A server answering the search with a non-OK status. -/
def srvSearchNo : ImapServer :=
  { srvTwoMails with searchStatus := "NO" }

/-- A server answering the search with OK and an empty id-list. -/
def srvSearchEmpty : ImapServer :=
  { srvTwoMails with searchData := "" }

/-- Recognizer for the `close` session operation. -/
def isCloseOp : ImapOp → Bool
  | .close => true
  | _ => false

theorem foldl_searchArrayStep (F : List (String × Option String)) :
    ∀ acc : List String, F.foldl searchArrayStep acc = acc ++ compileSpec F := by
  induction F with
  | nil => intro acc; simp [compileSpec]
  | cons kv rest ih =>
      intro acc
      obtain ⟨k, v⟩ := kv
      cases v with
      | none =>
          simp only [List.foldl_cons, searchArrayStep, compileSpec, ih]
          simp
      | some s =>
          by_cases hs : s = ""
          · subst hs
            simp only [List.foldl_cons, searchArrayStep, compileSpec, ih]
            simp
          · simp only [List.foldl_cons, searchArrayStep, compileSpec, ih, if_pos hs]
            simp [hs]

theorem fetchLoop_fail_facts (fetch : String → String × EmailMessage)
    (base : ModuleResult) :
    ∀ (ids : List String) (acc : List MailRecord) (m : String) (r : ModuleResult),
      (fetchLoop fetch base ids acc).1 = .failJson m r →
      m = "Error parsing" ∧ r.mails_count = base.mails_count ∧
        ∃ id ∈ ids, (fetch id).1 ≠ "OK" := by
  intro ids
  induction ids with
  | nil =>
      intro acc m r h
      simp [fetchLoop] at h
  | cons id rest ih =>
      intro acc m r h
      simp only [fetchLoop] at h
      split at h
      · rename_i hno
        simp only [Outcome.failJson.injEq] at h
        obtain ⟨hm, hr⟩ := h
        subst hm
        subst hr
        exact ⟨rfl, rfl, id, by simp, hno⟩
      · rename_i hok
        split at h
        · simp at h
        · obtain ⟨hm, hcnt, i, hi, hne⟩ := ih _ _ _ h
          exact ⟨hm, hcnt, i, by simp [hi], hne⟩

theorem fetchLoop_exit_facts (fetch : String → String × EmailMessage)
    (base : ModuleResult) :
    ∀ (ids : List String) (acc : List MailRecord) (r : ModuleResult),
      (fetchLoop fetch base ids acc).1 = .exitJson r →
      r.mails.length = acc.length + ids.length ∧ r.mails_count = r.mails.length := by
  intro ids
  induction ids with
  | nil =>
      intro acc r h
      simp only [fetchLoop, Outcome.exitJson.injEq] at h
      subst h
      simp
  | cons id rest ih =>
      intro acc r h
      simp only [fetchLoop] at h
      split at h
      · simp at h
      · split at h
        · simp at h
        · obtain ⟨hlen, hcnt⟩ := ih _ _ h
          constructor
          · rw [hlen]
            simp
            omega
          · exact hcnt

theorem fetchLoop_close_free (fetch : String → String × EmailMessage)
    (base : ModuleResult) :
    ∀ (ids : List String) (acc : List MailRecord),
      ((fetchLoop fetch base ids acc).2.countP (fun op => isCloseOp op)) = 0 := by
  intro ids
  induction ids with
  | nil => intro acc; simp [fetchLoop]
  | cons id rest ih =>
      intro acc
      simp only [fetchLoop]
      split
      · simp [List.countP, List.countP.go, isCloseOp]
      · split
        · simp [List.countP, List.countP.go, isCloseOp]
        · rw [List.countP_cons, ih]
          simp [isCloseOp]

/-- Claim C9: compilation emits, for each (key, value) pair of the filter in
insertion order, the key token followed immediately by the value token
exactly when the value is present and non-empty (absent or empty values emit
the key alone); the imperative `search_array` loop therefore equals the
declarative per-pair token expansion, preserving the relative order
k1, v1, k2, v2 of the input pairs. -/
theorem searchArray_refines_spec (F : List (String × Option String)) :
    searchArray F = compileSpec F := by
  simpa [searchArray] using foldl_searchArrayStep F []

/-- Claim C6, counterexample: an explicitly empty FilterSpec compiles to the
empty token sequence, not to the default match-everything token; the
compilation loop itself has no fallback. -/
theorem empty_filter_compiles_to_empty :
    searchArray [] = [] ∧ searchArray [] ≠ ["ALL"] := by decide

/-- Claim C6, amended: every non-empty FilterSpec compiles to a non-empty
token sequence, and the module-argument default filter compiles to the
single match-everything token ALL; an explicitly empty FilterSpec however
compiles to the empty (protocol-invalid) sequence, since the default is
applied by argument parsing only when the filter is omitted. -/
theorem filter_compile_nonempty_amended :
    (∀ F : List (String × Option String), F ≠ [] → searchArray F ≠ []) ∧
    searchArray defaultFilter = ["ALL"] := by
  constructor
  · intro F hF
    have h : searchArray F = compileSpec F := by
      simpa [searchArray] using foldl_searchArrayStep F []
    rw [h]
    cases F with
    | nil => exact absurd rfl hF
    | cons kv rest =>
        obtain ⟨k, v⟩ := kv
        simp [compileSpec]
  · decide

/-- Claim C6, witness of the amended statement at a singleton filter. -/
theorem filter_compile_nonempty_amended_w :
    searchArray [("SUBJECT", some "Invoice")] ≠ [] :=
  filter_compile_nonempty_amended.1 [("SUBJECT", some "Invoice")] (by decide)

/-- Claim C4 (code bug): on a well-formed non-multipart message with known
to, from, subject and body, the body is not taken directly; instead
`msg.get_payload(0)` raises TypeError on the non-list payload and the whole
retrieval crashes with that uncaught exception. -/
theorem single_part_body_crash :
    buildMail (msgSingle "bob@x" "ann@x" "Hello" "The body") =
        .error (.typeError "Expected list, got <class \x27str\x27>") ∧
    (runModule paramsStd srvSingleMail).1 =
        .crash (.typeError "Expected list, got <class \x27str\x27>") := by decide

/-- Claim C5 (code bug): a fetched message whose Subject header is missing
does not decode to an empty string; `decode_header(None)` raises TypeError
and the whole retrieval crashes with that uncaught exception. -/
theorem missing_header_crash :
    buildMail (msgNoSubject "bob@x" "ann@x" "The body") =
        .error (.typeError "expected string or bytes-like object") ∧
    (runModule paramsStd srvNoSubject).1 =
        .crash (.typeError "expected string or bytes-like object") := by decide

/-- Claim C7, counterexample: a fully successful retrieval performs no close
operation at all on the session, so close is not invoked exactly once. -/
theorem close_not_called_once_on_success :
    (runModule paramsStd srvTwoMails).1 = .exitJson resTwoMails ∧
    ((runModule paramsStd srvTwoMails).2.countP (fun op => isCloseOp op)) ≠ 1 := by
  decide

/-- Claim C7, amended: no exit path of the module ever invokes the session
close operation; the trace of session operations contains zero close
operations for every parameter set and every server behaviour. -/
theorem close_never_called (p : ModuleParams) (srv : ImapServer) :
    ((runModule p srv).2.countP (fun op => isCloseOp op)) = 0 := by
  simp only [runModule]
  split
  · simp
  · split
    · simp [List.countP, List.countP.go, isCloseOp]
    · split
      · simp [List.countP, List.countP.go, isCloseOp]
      · split
        · simp [List.countP, List.countP.go, isCloseOp]
        · split
          · simp [List.countP, List.countP.go, isCloseOp]
          · rw [List.countP_append, List.countP_append, fetchLoop_close_free]
            simp [List.countP_cons, isCloseOp]

/-- Claim C8: once connect, login and mailbox selection have succeeded, a
non-OK search status makes the module fail with the search error carrying
the untouched result (empty mails, so no MailRecord is produced), while an
OK status whose id-list is empty makes it exit successfully with zero
mails. -/
theorem search_status_split (p : ModuleParams) (srv : ImapServer)
    (hcm : p.checkMode = false) (hc : srv.connectExc = none)
    (hl : srv.loginExc = none) (hsel : srv.selectStatus = "OK") :
    (srv.searchStatus ≠ "OK" →
       (runModule p srv).1 = .failJson "Error filtering" (baseResult p)) ∧
    (srv.searchStatus = "OK" → pySplit srv.searchData = [] →
       (runModule p srv).1 = .exitJson (baseResult p)) := by
  constructor
  · intro hss
    simp [runModule, hcm, hc, hl, hsel, hss]
  · intro hss hids
    simp [runModule, hcm, hc, hl, hsel, hss, hids, fetchLoop, baseResult]

/-- Claim C8, witness: a concrete non-OK search status produces the search
error with the untouched result. -/
theorem search_status_split_w :
    (runModule paramsStd srvSearchNo).1 =
      .failJson "Error filtering" (baseResult paramsStd) :=
  (search_status_split paramsStd srvSearchNo rfl rfl rfl rfl).1 (by decide)

/-- Claim C3, counterexample: with a nonexistent mailbox (select answers
NO), the retrieval does not fail with a structured mailbox error; the
module discards the select status, proceeds to call search, and dies on the
uncaught illegal-state exception that the protocol client raises there. -/
theorem nonexistent_mailbox_no_mailbox_error :
    runModule paramsJunk srvBadMailbox =
      (.crash (.imaplibError
          "command SEARCH illegal in state AUTH, only allowed in states SELECTED"),
       [.connect "imap.example.com" 993, .login "alice", .select "Junk"]) := by
  decide

/-- Claim C3, amended: the module ignores the status returned by mailbox
selection; whenever select does not answer OK it still proceeds to the
search call, which raises an uncaught client-side illegal-state error, so
the retrieval crashes without any structured mailbox-error failure. -/
theorem select_status_ignored (p : ModuleParams) (srv : ImapServer)
    (hcm : p.checkMode = false) (hc : srv.connectExc = none)
    (hl : srv.loginExc = none) (hsel : srv.selectStatus ≠ "OK") :
    runModule p srv =
      (.crash (.imaplibError
          "command SEARCH illegal in state AUTH, only allowed in states SELECTED"),
       [.connect p.host (effectivePort p), .login p.username, .select p.mailbox]) := by
  simp [runModule, hcm, hc, hl, hsel]

/-- Claim C3, witness of the amended statement at a concrete server whose
select answers NO. -/
theorem select_status_ignored_w :
    runModule paramsStd srvBadMailbox =
      (.crash (.imaplibError
          "command SEARCH illegal in state AUTH, only allowed in states SELECTED"),
       [.connect "imap.example.com" 993, .login "alice", .select "INBOX"]) := by
  have h := select_status_ignored paramsStd srvBadMailbox rfl rfl rfl (by decide)
  exact h

/-- Claim C1, counterexample: with fetch failing on the third of five ids,
the module calls fail_json with the result dict whose mails list already
holds the two decoded records, so the in-progress (truncated) mail list
reaches the caller inside the failure payload instead of being
discarded. -/
theorem partial_mails_in_fail_payload :
    (runModule paramsStd srvFetchFail3).1 = .failJson "Error parsing" resFail3 ∧
    resFail3.mails = [recStd, recStd] := by decide

/-- Claim C1, amended: a fetch failure aborts the retrieval and a
truncated list is never returned as success: every successful exit carries
exactly one record per searched id, and in every structured failure
mails_count is still 0, never the truncated length; the failure payload
does, however, carry the records decoded before the abort. -/
theorem fetch_abort_never_truncated_success (p : ModuleParams) (srv : ImapServer)
    (hcm : p.checkMode = false) :
    (∀ r, (runModule p srv).1 = .exitJson r →
        r.mails.length = (pySplit srv.searchData).length) ∧
    (∀ m r, (runModule p srv).1 = .failJson m r → r.mails_count = 0) := by
  constructor
  · intro r h
    simp only [runModule, hcm] at h
    simp only [Bool.false_eq_true, if_false] at h
    split at h
    · simp at h
    · split at h
      · simp at h
      · split at h
        · simp at h
        · split at h
          · simp at h
          · have := (fetchLoop_exit_facts srv.fetch (baseResult p) _ _ _ h).1
            simpa using this
  · intro m r h
    simp only [runModule, hcm] at h
    simp only [Bool.false_eq_true, if_false] at h
    split at h
    · simp only [Outcome.failJson.injEq] at h
      obtain ⟨_, hr⟩ := h
      subst hr
      simp [baseResult]
    · split at h
      · simp only [Outcome.failJson.injEq] at h
        obtain ⟨_, hr⟩ := h
        subst hr
        simp [baseResult]
      · split at h
        · simp at h
        · split at h
          · simp only [Outcome.failJson.injEq] at h
            obtain ⟨_, hr⟩ := h
            subst hr
            simp [baseResult]
          · have := (fetchLoop_fail_facts srv.fetch (baseResult p) _ _ _ _ h).2.1
            simpa [baseResult] using this

/-- Claim C1, witness of the amended statement: the aborted run against
`srvFetchFail3` leaves mails_count at 0. -/
theorem fetch_abort_never_truncated_success_w :
    resFail3.mails_count = 0 :=
  (fetch_abort_never_truncated_success paramsStd srvFetchFail3 rfl).2
    "Error parsing" resFail3 (by decide)

/-- Claim C2, counterexample: the result dict passed to fail_json when the
third fetch fails has mails_count 0 but a mails list of length 2, so
mails_count does not equal the length of mails in every returned result. -/
theorem mails_count_mismatch_in_fail_payload :
    (runModule paramsStd srvFetchFail3).1 = .failJson "Error parsing" resFail3 ∧
    resFail3.mails_count ≠ resFail3.mails.length := by decide

/-- Claim C2, amended: mails_count equals the length of mails in every
successful result; in every structured failure mails_count is 0, which
matches the empty mails list except in a fetch-stage failure, where the
payload still carries the records decoded before the abort. -/
theorem mails_count_consistency (p : ModuleParams) (srv : ImapServer) :
    (∀ r, (runModule p srv).1 = .exitJson r → r.mails_count = r.mails.length) ∧
    (∀ m r, (runModule p srv).1 = .failJson m r → r.mails_count = 0) := by
  constructor
  · intro r h
    simp only [runModule] at h
    split at h
    · simp only [Outcome.exitJson.injEq] at h
      subst h
      simp [baseResult]
    · split at h
      · simp at h
      · split at h
        · simp at h
        · split at h
          · simp at h
          · split at h
            · simp at h
            · exact (fetchLoop_exit_facts srv.fetch (baseResult p) _ _ _ h).2
  · intro m r h
    simp only [runModule] at h
    split at h
    · simp at h
    · split at h
      · simp only [Outcome.failJson.injEq] at h
        obtain ⟨_, hr⟩ := h
        subst hr
        simp [baseResult]
      · split at h
        · simp only [Outcome.failJson.injEq] at h
          obtain ⟨_, hr⟩ := h
          subst hr
          simp [baseResult]
        · split at h
          · simp at h
          · split at h
            · simp only [Outcome.failJson.injEq] at h
              obtain ⟨_, hr⟩ := h
              subst hr
              simp [baseResult]
            · have := (fetchLoop_fail_facts srv.fetch (baseResult p) _ _ _ _ h).2.1
              simpa [baseResult] using this

/-- Claim C2, witness of the amended statement: the successful two-mail run
has mails_count equal to the length of mails. -/
theorem mails_count_consistency_w :
    resTwoMails.mails_count = resTwoMails.mails.length :=
  (mails_count_consistency paramsStd srvTwoMails).1 resTwoMails (by decide)

/-- Claim C10: a structured fail_json result is produced at exactly four
sites — a connect exception, a login exception, a non-OK search status
(after an OK select), and a non-OK fetch status on some searched id; in
particular mailbox selection and per-message header/body decoding never
produce a structured failure result. -/
theorem failJson_exactly_four_sites (p : ModuleParams) (srv : ImapServer)
    (m : String) (r : ModuleResult)
    (h : (runModule p srv).1 = .failJson m r) :
    p.checkMode = false ∧
    (srv.connectExc = some m ∨
     (srv.connectExc = none ∧ srv.loginExc = some m) ∨
     (srv.connectExc = none ∧ srv.loginExc = none ∧ srv.selectStatus = "OK" ∧
        srv.searchStatus ≠ "OK" ∧ m = "Error filtering") ∨
     (srv.connectExc = none ∧ srv.loginExc = none ∧ srv.selectStatus = "OK" ∧
        srv.searchStatus = "OK" ∧ m = "Error parsing" ∧
        ∃ id ∈ pySplit srv.searchData, (srv.fetch id).1 ≠ "OK")) := by
  simp only [runModule] at h
  split at h
  · simp at h
  · rename_i hck
    refine ⟨by simpa using hck, ?_⟩
    split at h
    · rename_i e heqc
      simp only [Outcome.failJson.injEq] at h
      obtain ⟨he, _⟩ := h
      subst he
      exact Or.inl heqc
    · rename_i heqc
      split at h
      · rename_i e heql
        simp only [Outcome.failJson.injEq] at h
        obtain ⟨he, _⟩ := h
        subst he
        exact Or.inr (Or.inl ⟨heqc, heql⟩)
      · rename_i heql
        split at h
        · simp at h
        · rename_i hsel
          split at h
          · rename_i hss
            simp only [Outcome.failJson.injEq] at h
            obtain ⟨hm, _⟩ := h
            exact Or.inr (Or.inr (Or.inl
              ⟨heqc, heql, by simpa using hsel, hss, hm.symm⟩))
          · rename_i hss
            obtain ⟨hm, _, hex⟩ :=
              fetchLoop_fail_facts srv.fetch (baseResult p) _ _ _ _ h
            exact Or.inr (Or.inr (Or.inr
              ⟨heqc, heql, by simpa using hsel, by simpa using hss, hm, hex⟩))

/-- Claim C10, witness: the aborted run against `srvFetchFail3` instantiates
the fetch-stage site of the enumeration. -/
theorem failJson_exactly_four_sites_w :
    paramsStd.checkMode = false ∧
    (srvFetchFail3.connectExc = some "Error parsing" ∨
     (srvFetchFail3.connectExc = none ∧
        srvFetchFail3.loginExc = some "Error parsing") ∨
     (srvFetchFail3.connectExc = none ∧ srvFetchFail3.loginExc = none ∧
        srvFetchFail3.selectStatus = "OK" ∧ srvFetchFail3.searchStatus ≠ "OK" ∧
        "Error parsing" = "Error filtering") ∨
     (srvFetchFail3.connectExc = none ∧ srvFetchFail3.loginExc = none ∧
        srvFetchFail3.selectStatus = "OK" ∧ srvFetchFail3.searchStatus = "OK" ∧
        "Error parsing" = "Error parsing" ∧
        ∃ id ∈ pySplit srvFetchFail3.searchData,
          (srvFetchFail3.fetch id).1 ≠ "OK")) :=
  failJson_exactly_four_sites paramsStd srvFetchFail3 "Error parsing" resFail3
    (by decide)
